import Mathlib

/-!
# Verification of the sentinel DNS-failover reconciler

A shallow embedding of the `sentinel` repository (Go): the configuration,
the reconciliation pass (`Sentinel.CheckAndUpdateDNS` / `Sentinel.updateDNS`
in `sentinel.go`), the startup path (`NewConfig` / `NewSentinel`), the INWX
session-retry logic (`inwx.go`), and the leadership checks of the two
orchestration adapters (`docker.go`, the Kubernetes client).

External collaborators (the Go standard library's `netip` address parser,
the libdns provider libraries, the Docker and Kubernetes HTTP APIs) are not
part of the repository; they enter the embedding as explicit parameters
(a `parse` function, response lists, `Option`-valued query results) or, for
the DNS zone upsert semantics, as a definition modelled from the spec.
-/

/-- The application configuration (`Config` in `sentinel.go`). String and
integer fields only; `recordTTL` and `serverIP` start at Go's zero values
(`0`, `""`) when built by `newConfig`. -/
structure Config where
  domain : String
  record : String
  recordTTL : Int
  serverIP : String
  logLevel : String
  orchestrationType : String
  dnsProvider : String
deriving DecidableEq, Repr

/-- A DNS resource record as observed through `libdns.Record.RR()`:
name, type, data (record content) and TTL in seconds. -/
structure RR where
  name : String
  typ : String
  data : String
  ttl : Int
deriving DecidableEq, Repr

/-- Modelled from the spec: an IP address value (the Go standard library's
`netip.Addr`, external to this repository), as this program observes it
through `libdns.Address.RR()`: its address family (`Is4`, true for IPv4
dotted-quad literals, false for IPv6 literals) and its canonical string
form (`Addr.String`). -/
structure Addr where
  is4 : Bool
  str : String
deriving DecidableEq, Repr

/-- Modelled from the spec: `netip.Addr.String` (external to this
repository), the canonical text the address renders to. -/
def addrToString (a : Addr) : String :=
  a.str

/-- The address record handed to `SetRecords` (`libdns.Address` in
`sentinel.go`): a name, a parsed IP and a TTL in seconds
(`time.Duration(RecordTTL) * time.Second`). -/
structure AddressRecord where
  name : String
  ip : Addr
  ttlSeconds : Int
deriving DecidableEq, Repr

/-- The `RR()` view of an address record, as `libdns.Address.RR()` builds
it: the record type is `"A"` when the IP is an IPv4 address and `"AAAA"`
when it is an IPv6 address, and the data is the address's string form. -/
def addressRR (r : AddressRecord) : RR :=
  { name := r.name, typ := if r.ip.is4 then "A" else "AAAA",
    data := addrToString r.ip, ttl := r.ttlSeconds }

/-- A DNS client call issued during a reconciliation pass. -/
inductive DnsOp where
  | getRecords (zone : String)
  | setRecords (zone : String) (records : List AddressRecord)
deriving DecidableEq, Repr

/-- The environment one reconciliation pass runs against: the leadership
answer, the result of `GetRecords` (`none` models an error) and whether
`SetRecords` would succeed. -/
structure PassEnv where
  isLeader : Bool
  getRecordsRes : Option (List RR)
  setRecordsOk : Bool
deriving DecidableEq, Repr

/-- How one reconciliation pass ends. `panicked` models the
`netip.MustParseAddr` panic; the others are the logged outcomes. -/
inductive PassOutcome where
  | idle
  | getError
  | noChange
  | updated
  | updateFailed
  | panicked
deriving DecidableEq, Repr

/-- The `currentIP` scan of `Sentinel.updateDNS` (`sentinel.go` lines
158–165): the data of the first record whose name equals the configured
record and whose type is `"A"`, the empty string when there is none. -/
def currentIPOf (cfg : Config) (records : List RR) : String :=
  match records.find? (fun rr => rr.name == cfg.record && rr.typ == "A") with
  | some rr => rr.data
  | none => ""

/-- `Sentinel.updateDNS` (`sentinel.go` lines 148–187): fetch the zone's
records, scan for the current IP, and when it differs from the configured
server IP, parse the server IP (`netip.MustParseAddr`, passed in as
`parse`; `none` means the parse fails and the call panics) and issue one
`SetRecords` call with a single address record. Returns the outcome and the
list of DNS client calls made. -/
def updateDNS (parse : String → Option Addr) (cfg : Config) (env : PassEnv) :
    PassOutcome × List DnsOp :=
  let zone := cfg.domain ++ "."
  match env.getRecordsRes with
  | none => (PassOutcome.getError, [DnsOp.getRecords zone])
  | some records =>
    let currentIP := currentIPOf cfg records
    if currentIP ≠ cfg.serverIP then
      match parse cfg.serverIP with
      | none => (PassOutcome.panicked, [DnsOp.getRecords zone])
      | some a =>
        let newRecords := [AddressRecord.mk cfg.record a cfg.recordTTL]
        if env.setRecordsOk then
          (PassOutcome.updated, [DnsOp.getRecords zone, DnsOp.setRecords zone newRecords])
        else
          (PassOutcome.updateFailed, [DnsOp.getRecords zone, DnsOp.setRecords zone newRecords])
    else
      (PassOutcome.noChange, [DnsOp.getRecords zone])

/-- `Sentinel.CheckAndUpdateDNS` (`sentinel.go` lines 141–146): run
`updateDNS` only when `IsLeader()` reports true; otherwise do nothing. -/
def checkAndUpdateDNS (parse : String → Option Addr) (cfg : Config) (env : PassEnv) :
    PassOutcome × List DnsOp :=
  if env.isLeader then updateDNS parse cfg env else (PassOutcome.idle, [])

/-- Modelled from the spec: `SetRecords` "idempotently upserts the given
records (matched by name+type) in the zone, creating or overwriting as
needed" (spec §4.2). The libdns provider libraries implementing it are not
part of this repository. Records matching an upserted record's name and
type are replaced by it. -/
def setRecordsModel (zone : List RR) (newRecords : List RR) : List RR :=
  newRecords.foldl
    (fun z n => z.filter (fun r => !(r.name == n.name && r.typ == n.typ)) ++ [n]) zone

/-- Replay the DNS calls of a pass against a zone state: reads leave the
zone unchanged, writes apply the spec's upsert semantics. -/
def applyOps (zone : List RR) (ops : List DnsOp) : List RR :=
  ops.foldl
    (fun z op =>
      match op with
      | DnsOp.getRecords _ => z
      | DnsOp.setRecords _ recs => setRecordsModel z (recs.map addressRR)) zone

/-- One reconciliation pass against a concrete zone state with a reliable
transport: `GetRecords` returns the zone, `SetRecords` succeeds and
updates the zone per the spec's upsert semantics. Returns the pass result
and the zone afterwards. -/
def passOnZone (parse : String → Option Addr) (cfg : Config) (isLeader : Bool)
    (zone : List RR) : (PassOutcome × List DnsOp) × List RR :=
  let r := checkAndUpdateDNS parse cfg
    { isLeader := isLeader, getRecordsRes := some zone, setRecordsOk := true }
  (r, applyOps zone r.2)

/-- The number of `SetRecords` calls in a call list. -/
def writesOf (ops : List DnsOp) : Nat :=
  ops.countP fun op =>
    match op with
    | DnsOp.setRecords _ _ => true
    | _ => false

/-- `getEnv` (`sentinel.go` lines 209–215): look up the key with the
`SENTINEL_` prefix in the process environment (modelled as a partial map),
falling back to the given default when unset. -/
def getEnv (env : String → Option String) (key fallback : String) : String :=
  match env ("SENTINEL_" ++ key) with
  | some value => value
  | none => fallback

/-- `NewConfig` (`sentinel.go` lines 43–59): build the configuration from
environment variables. `RecordTTL` and `ServerIP` are not set here and
carry Go's zero values. -/
def newConfig (env : String → Option String) : Config :=
  { domain := getEnv env "DOMAIN" "example.com"
    record := getEnv env "RECORD" "lb"
    recordTTL := 0
    serverIP := ""
    logLevel := getEnv env "LOG_LEVEL" "INFO"
    orchestrationType := getEnv env "ORCHESTRATION_TYPE" "swarm"
    dnsProvider := getEnv env "DNS_PROVIDER" "inwx" }

/-- The DNS client handle a provider configurator returns: the libdns
provider struct with its credentials. -/
inductive DnsClientKind where
  | inwx (user password : String)
  | bunny (accessKey : String)
deriving DecidableEq, Repr

/-- `configureInwx` (`sentinel.go` lines 61–82): set `RecordTTL` to 300,
require `INWX_USER`, read the password from the mounted secret
(`secretInwxPassword`, already trimmed like `readSecret` does) or from
`INWX_PASSWORD`. Returns the updated configuration and the client handle,
`none` standing for the error return. -/
def configureInwx (env : String → Option String) (secretInwxPassword : Option String)
    (c : Config) : Config × Option DnsClientKind :=
  let c2 := { c with recordTTL := 300 }
  let user := getEnv env "INWX_USER" ""
  if user = "" then (c2, none)
  else
    match secretInwxPassword with
    | some password => (c2, some (DnsClientKind.inwx user password))
    | none =>
      let password := getEnv env "INWX_PASSWORD" ""
      if password = "" then (c2, none) else (c2, some (DnsClientKind.inwx user password))

/-- `configureBunny` (`sentinel.go` lines 84–96): set `RecordTTL` to 15 and
require `BUNNY_API_KEY`. -/
def configureBunny (env : String → Option String) (c : Config) :
    Config × Option DnsClientKind :=
  let c2 := { c with recordTTL := 15 }
  let key := getEnv env "BUNNY_API_KEY" ""
  if key = "" then (c2, none) else (c2, some (DnsClientKind.bunny key))

/-- The orchestration adapter selected at startup. -/
inductive OrchKind where
  | docker
  | k8s
deriving DecidableEq, Repr

/-- The fully constructed `Sentinel` (`sentinel.go` lines 36–40). -/
structure SentinelState where
  config : Config
  dnsClient : DnsClientKind
  orchestration : OrchKind
deriving DecidableEq, Repr

/-- How `NewSentinel` ends: `fatalLog` models `log.Fatalf` (abort with a
descriptive message), `nilPanic` models the runtime panic of calling
`GetNodePublicIP` through the nil orchestration interface, `ok` the
successful construction. -/
inductive StartupOutcome where
  | fatalLog
  | nilPanic
  | ok (s : SentinelState)
deriving DecidableEq, Repr

/-- A network call made during startup. The provider configurators and the
adapter constructors make none; only `GetNodePublicIP` does. -/
inductive StartupNetOp where
  | getNodePublicIP
deriving DecidableEq, Repr

/-- The provider switch of `NewSentinel` (`sentinel.go` lines 106–113):
dispatch on the DNS provider selector; an unrecognized selector yields the
error return (`none`) with the configuration untouched. -/
def configureDns (env : String → Option String) (secretInwxPassword : Option String)
    (config : Config) : Config × Option DnsClientKind :=
  if config.dnsProvider = "inwx" then configureInwx env secretInwxPassword config
  else if config.dnsProvider = "bunny" then configureBunny env config
  else (config, none)

/-- The orchestration-adapter selection of `NewSentinel` (`sentinel.go`
lines 121–129): `"swarm"` builds the Docker adapter, `"kubernetes"` builds
the Kubernetes adapter when its constructor succeeds (outer `none` models
the fatal constructor error), and any other selector leaves the adapter
nil (`some none`) — there is no else branch in the source. -/
def selectOrchestration (orchestrationType : String) (k8sInitOk : Bool) :
    Option (Option OrchKind) :=
  if orchestrationType = "swarm" then some (some OrchKind.docker)
  else if orchestrationType = "kubernetes" then
    (if k8sInitOk then some (some OrchKind.k8s) else none)
  else some none

/-- The tail of `NewSentinel` (`sentinel.go` lines 115–137) after the DNS
client is configured: a failed Kubernetes constructor is fatal, a nil
adapter panics at the `GetNodePublicIP` call, otherwise the public IP is
resolved over the network (failure fatal) and stored in the
configuration. -/
def finishStartup (nodePublicIP : Option String) (config2 : Config)
    (dnsClient : DnsClientKind) (orchRes : Option (Option OrchKind)) :
    StartupOutcome × List StartupNetOp :=
  match orchRes with
  | none => (StartupOutcome.fatalLog, [])
  | some none => (StartupOutcome.nilPanic, [])
  | some (some orch) =>
    match nodePublicIP with
    | none => (StartupOutcome.fatalLog, [StartupNetOp.getNodePublicIP])
    | some ip =>
      (StartupOutcome.ok
        { config := { config2 with serverIP := ip }, dnsClient := dnsClient,
          orchestration := orch },
        [StartupNetOp.getNodePublicIP])

/-- `NewSentinel` (`sentinel.go` lines 98–138): configure the DNS provider
(unknown selector or missing credentials are fatal via `log.Fatalf`),
select the orchestration adapter, then resolve the node's public IP.
`k8sInitOk` models whether `NewK8sClient` succeeds; `nodePublicIP` the
`GetNodePublicIP` result. Returns the outcome and the network calls
attempted. -/
def newSentinel (env : String → Option String) (secretInwxPassword : Option String)
    (k8sInitOk : Bool) (nodePublicIP : Option String) (config : Config) :
    StartupOutcome × List StartupNetOp :=
  match (configureDns env secretInwxPassword config).2 with
  | none => (StartupOutcome.fatalLog, [])
  | some dnsClient =>
    finishStartup nodePublicIP (configureDns env secretInwxPassword config).1 dnsClient
      (selectOrchestration (configureDns env secretInwxPassword config).1.orchestrationType
        k8sInitOk)

/-- The `recordTTL` of a successfully constructed sentinel. -/
def startupConfigTTL : StartupOutcome → Option Int
  | StartupOutcome.ok s => some s.config.recordTTL
  | _ => none

/-- Result of `InwxClient.GetRecordContent` (`inwx.go` lines 112–184). -/
inductive InwxGetResult where
  | content (s : String)
  | loginFailed (code : Int)
  | infoFailed (code : Int)
  | transportEnd
deriving DecidableEq, Repr

/-- `InwxClient.GetRecordContent` (`inwx.go` lines 112–184) as a function
of the session state (`cookies` present or not) and the sequence of INWX
API response codes+contents, one consumed per HTTP call (login calls
consume one, info calls consume one). Without cookies it logs in first
(code 1000 succeeds, anything else is a login error); with cookies it
issues the info request: code 1000 returns the record content, code 1500
(session expired) clears the cookies and recursively re-enters the whole
function, any other code is an info error. `transportEnd` stands for the
response stream running out. -/
def inwxGetRecordContent : Bool → List (Int × String) → InwxGetResult
  | true, [] => InwxGetResult.transportEnd
  | true, (code, content) :: rest =>
    if code = 1000 then InwxGetResult.content content
    else if code = 1500 then inwxGetRecordContent false rest
    else InwxGetResult.infoFailed code
  | false, [] => InwxGetResult.transportEnd
  | false, (code, _) :: rest =>
    if code = 1000 then inwxGetRecordContent true rest
    else InwxGetResult.loginFailed code

/-- Result of `InwxClient.UpdateDNS` (`inwx.go` lines 186–253). -/
inductive InwxUpdResult where
  | ok
  | loginFailed (code : Int)
  | updateFailed (code : Int)
  | transportEnd
deriving DecidableEq, Repr

/-- `InwxClient.UpdateDNS` (`inwx.go` lines 186–253), same shape as
`inwxGetRecordContent`: login when cookies are absent, then the update
request; code 1000 succeeds, code 1500 clears the cookies and recursively
retries the whole call, other codes are update errors. -/
def inwxUpdateDNS : Bool → List Int → InwxUpdResult
  | true, [] => InwxUpdResult.transportEnd
  | true, code :: rest =>
    if code = 1000 then InwxUpdResult.ok
    else if code = 1500 then inwxUpdateDNS false rest
    else InwxUpdResult.updateFailed code
  | false, [] => InwxUpdResult.transportEnd
  | false, code :: rest =>
    if code = 1000 then inwxUpdateDNS true rest
    else InwxUpdResult.loginFailed code

/-- A response sequence with `k` session-expiry rounds: starting with a
live session, each round answers the record request with code 1500 and the
following re-login with code 1000; the final record request succeeds with
content `c`. -/
def retryResponses (k : Nat) (c : String) : List (Int × String) :=
  (List.replicate k [((1500 : Int), ""), ((1000 : Int), "")]).flatten ++ [((1000 : Int), c)]

/-- Docker Swarm node information (`NodeInfo` in `docker.go`):
`managerStatus = none` models a nil `ManagerStatus`, `some b` a present
one with `Leader = b`. -/
structure NodeInfo where
  id : String
  managerStatus : Option Bool
deriving DecidableEq, Repr

/-- `DockerClient.IsSwarmLeader` (`docker.go` lines 79–123) as a function
of the `GetCurrentNodeID` result and the parsed `/nodes` response; `none`
models any failure (connection error, read error, parse error, missing
node ID). True iff some listed node has this node's ID, a non-nil manager
status and the leader flag set. -/
def isSwarmLeader (currentNodeIDRes : Option String)
    (nodesRes : Option (List NodeInfo)) : Bool :=
  match currentNodeIDRes with
  | none => false
  | some currentNodeID =>
    match nodesRes with
    | none => false
    | some nodes =>
      nodes.any fun node =>
        node.id == currentNodeID &&
          (match node.managerStatus with
           | some leader => leader
           | none => false)

/-- Go's `strings.HasPrefix` on the character lists of the two strings
(the Go standard library is external to this repository). -/
def strHasPrefix (s pre : String) : Bool :=
  pre.data.isPrefixOf s.data

/-- `K8sClient.IsLeader` (Kubernetes client, lines 325–349): as a function
of the `GetNodeName` result and the `kube-controller-manager` lease fetch.
`leaseRes = none` models a failed lease fetch, `some none` a lease with a
nil holder identity. True iff the holder identity starts with the node
name followed by an underscore. -/
def k8sIsLeader (nodeNameRes : Option String)
    (leaseRes : Option (Option String)) : Bool :=
  match nodeNameRes with
  | none => false
  | some nodeName =>
    match leaseRes with
    | none => false
    | some none => false
    | some (some holderIdentity) => strHasPrefix holderIdentity (nodeName ++ "_")

/-- A step of the process's outer control flow (`Sentinel.Run`,
`sentinel.go` lines 190–207, and `main`, `main.go` lines 12–42). -/
inductive RunAction where
  | logStart
  | checkConfigErrors
  | logNodeName
  | reconcilePass
  | watchEventsCall
  | blockOnSignal
deriving DecidableEq, Repr

/-- `Sentinel.Run` (`sentinel.go` lines 190–207) on the non-fatal path:
log the banner, check the adapter's configuration errors, log the node
name, run the initial reconciliation pass, then call `WatchEvents` once.
There is no loop: when `WatchEvents` returns, `Run` returns. -/
def sentinelRunActions : List RunAction :=
  [RunAction.logStart, RunAction.checkConfigErrors, RunAction.logNodeName,
   RunAction.reconcilePass, RunAction.watchEventsCall]

/-- The process's control flow once `WatchEvents` has returned (e.g. the
Docker event stream dropped): `Run` was started in a goroutine by `main`
(`main.go` lines 34–42); after it returns, the goroutine ends and `main`
stays blocked on the signal channel. Nothing restarts the watch. -/
def mainActionsAfterWatchReturn : List RunAction :=
  sentinelRunActions ++ [RunAction.blockOnSignal]

/-- A concrete configuration used by the concrete instances below. -/
def exCfg : Config :=
  { domain := "example.com", record := "lb", recordTTL := 300, serverIP := "10.0.0.2",
    logLevel := "INFO", orchestrationType := "swarm", dnsProvider := "inwx" }

/-- A concrete address parser used by the concrete instances below,
standing in for the external `netip.ParseAddr` at the inputs they use. -/
def exParse : String → Option Addr :=
  fun s => if s = "10.0.0.2" then some ⟨true, "10.0.0.2"⟩ else none

/-- A configuration whose desired server IP is a canonical IPv6 literal
(taken verbatim from a node label). -/
def cfg6 : Config :=
  { domain := "example.com", record := "lb", recordTTL := 300,
    serverIP := "2001:db8::1", logLevel := "INFO", orchestrationType := "swarm",
    dnsProvider := "inwx" }

/-- A concrete parser instance for `cfg6`: `netip.ParseAddr` accepts the
canonical IPv6 literal `2001:db8::1` and yields an IPv6 (`Is4` false)
address rendering back to the same text. -/
def parse6 : String → Option Addr :=
  fun s => if s = "2001:db8::1" then some ⟨false, "2001:db8::1"⟩ else none

/-- A concrete process environment holding INWX credentials. -/
def credEnv : String → Option String :=
  fun k =>
    if k = "SENTINEL_INWX_USER" then some "user"
    else if k = "SENTINEL_INWX_PASSWORD" then some "pw"
    else none

/-- `credEnv` plus an orchestration selector that is neither `swarm` nor
`kubernetes`. -/
def credEnvNomad : String → Option String :=
  fun k =>
    if k = "SENTINEL_INWX_USER" then some "user"
    else if k = "SENTINEL_INWX_PASSWORD" then some "pw"
    else if k = "SENTINEL_ORCHESTRATION_TYPE" then some "nomad"
    else none

/-- The sentinel state `newSentinel` builds from `credEnv`. -/
def exSentinelState : SentinelState :=
  { config := { domain := "example.com", record := "lb", recordTTL := 300,
                serverIP := "192.0.2.1", logLevel := "INFO",
                orchestrationType := "swarm", dnsProvider := "inwx" },
    dnsClient := DnsClientKind.inwx "user" "pw",
    orchestration := OrchKind.docker }

/-- The provider configurator for INWX always returns the configuration
with `recordTTL` set to 300 and everything else unchanged. -/
theorem configureInwx_fst (env : String → Option String)
    (secret : Option String) (c : Config) :
    (configureInwx env secret c).1 = { c with recordTTL := 300 } := by
  unfold configureInwx
  cases secret <;> dsimp only <;> split <;> (try split) <;> simp

/-- The provider configurator for Bunny always returns the configuration
with `recordTTL` set to 15 and everything else unchanged. -/
theorem configureBunny_fst (env : String → Option String) (c : Config) :
    (configureBunny env c).1 = { c with recordTTL := 15 } := by
  unfold configureBunny
  dsimp only
  split <;> simp

/-- The provider switch leaves the orchestration selector untouched. -/
theorem configureDns_orch (env : String → Option String) (secret : Option String)
    (cfg : Config) :
    (configureDns env secret cfg).1.orchestrationType = cfg.orchestrationType := by
  unfold configureDns
  split
  · rw [configureInwx_fst]
  · split
    · rw [configureBunny_fst]
    · rfl

/-- When the provider switch yields a DNS client, the selector was `inwx`
or `bunny` and the configuration moved to the provider's default TTL. -/
theorem configureDns_some (env : String → Option String) (secret : Option String)
    (cfg : Config) (dns : DnsClientKind)
    (h : (configureDns env secret cfg).2 = some dns) :
    (cfg.dnsProvider = "inwx" ∧
      (configureDns env secret cfg).1 = { cfg with recordTTL := 300 }) ∨
    (cfg.dnsProvider = "bunny" ∧
      (configureDns env secret cfg).1 = { cfg with recordTTL := 15 }) := by
  by_cases h1 : cfg.dnsProvider = "inwx"
  · refine Or.inl ⟨h1, ?_⟩
    unfold configureDns
    rw [if_pos h1, configureInwx_fst]
  · by_cases h2 : cfg.dnsProvider = "bunny"
    · refine Or.inr ⟨h2, ?_⟩
      unfold configureDns
      rw [if_neg h1, if_pos h2, configureBunny_fst]
    · unfold configureDns at h
      rw [if_neg h1, if_neg h2] at h
      exact absurd h (by simp)

/-- A successful startup pins down the final configuration: it is the
post-provider configuration with the resolved IP stored in `serverIP`. -/
theorem finishStartup_ok (nodePublicIP : Option String) (config2 : Config)
    (dnsClient : DnsClientKind) (orchRes : Option (Option OrchKind))
    (s : SentinelState) (ops : List StartupNetOp)
    (h : finishStartup nodePublicIP config2 dnsClient orchRes =
      (StartupOutcome.ok s, ops)) :
    s.config = { config2 with serverIP := s.config.serverIP } ∧
    nodePublicIP = some s.config.serverIP := by
  cases orchRes with
  | none => simp [finishStartup] at h
  | some o =>
    cases o with
    | none => simp [finishStartup] at h
    | some orch =>
      cases nodePublicIP with
      | none => simp [finishStartup] at h
      | some ip =>
        simp only [finishStartup, Prod.mk.injEq, StartupOutcome.ok.injEq] at h
        obtain ⟨h1, h2⟩ := h
        subst h1
        exact ⟨rfl, rfl⟩

/-- After upserting the single address record a pass writes, and provided
that record carries an IPv4 address (so its `RR()` type is `"A"`), the
scan of the next pass reads back exactly that record's content. -/
theorem currentIPOf_after_upsert (cfg : Config) (zone : List RR) (a : Addr) (ttl : Int)
    (h4 : a.is4 = true) :
    currentIPOf cfg (setRecordsModel zone [addressRR (AddressRecord.mk cfg.record a ttl)]) =
      addrToString a := by
  have htyp : addressRR (AddressRecord.mk cfg.record a ttl) =
      RR.mk cfg.record "A" (addrToString a) ttl := by
    simp [addressRR, h4]
  rw [htyp]
  have hset :
      setRecordsModel zone [RR.mk cfg.record "A" (addrToString a) ttl] =
        zone.filter (fun r => !(r.name == cfg.record && r.typ == "A")) ++
          [RR.mk cfg.record "A" (addrToString a) ttl] := by
    simp [setRecordsModel]
  have hnone :
      (zone.filter (fun r => !(r.name == cfg.record && r.typ == "A"))).find?
        (fun rr => rr.name == cfg.record && rr.typ == "A") = none := by
    rw [List.find?_eq_none]
    intro x hx
    have hmem := (List.mem_filter.mp hx).2
    intro hcontra
    rw [hcontra] at hmem
    simp at hmem
  have hpos : ((RR.mk cfg.record "A" (addrToString a) ttl).name == cfg.record &&
      (RR.mk cfg.record "A" (addrToString a) ttl).typ == "A") = true := by
    simp
  have hfind :
      List.find? (fun rr => rr.name == cfg.record && rr.typ == "A")
        [RR.mk cfg.record "A" (addrToString a) ttl] =
        some (RR.mk cfg.record "A" (addrToString a) ttl) :=
    List.find?_cons_of_pos [] hpos
  rw [currentIPOf, hset, List.find?_append, hnone, hfind]
  rfl

/-- Claim C1: in a reconciliation pass where `IsLeader()` is false, no DNS
operation happens at all — neither `GetRecords` nor `SetRecords` is called
— and the pass returns to idle with the zone state unchanged. -/
theorem leader_gating_no_dns (parse : String → Option Addr) (cfg : Config)
    (env : PassEnv) (zone : List RR) (hL : env.isLeader = false) :
    checkAndUpdateDNS parse cfg env = (PassOutcome.idle, []) ∧
    passOnZone parse cfg env.isLeader zone = ((PassOutcome.idle, []), zone) := by
  constructor
  · simp [checkAndUpdateDNS, hL]
  · simp [passOnZone, checkAndUpdateDNS, hL, applyOps]

/-- Concrete instance of `leader_gating_no_dns`. -/
theorem leader_gating_no_dns_witness :
    checkAndUpdateDNS exParse exCfg
      { isLeader := false, getRecordsRes := some [], setRecordsOk := true } =
      (PassOutcome.idle, []) :=
  (leader_gating_no_dns exParse exCfg
    { isLeader := false, getRecordsRes := some [], setRecordsOk := true } [] rfl).1

/-- Claim C2: when the leader finds the current IP different from the
configured server IP, exactly one `SetRecords` call is issued against zone
`Domain ++ "."` with a single address record carrying the configured
record name, the parsed server IP and the configured TTL; and the provider
configurators set that TTL to the provider default, 300 for INWX and 15
for Bunny. -/
theorem convergence_single_write (parse : String → Option Addr) (cfg : Config)
    (env : PassEnv) (rs : List RR) (a : Addr)
    (hL : env.isLeader = true) (hG : env.getRecordsRes = some rs)
    (hNe : currentIPOf cfg rs ≠ cfg.serverIP) (hp : parse cfg.serverIP = some a) :
    (checkAndUpdateDNS parse cfg env).2 =
      [DnsOp.getRecords (cfg.domain ++ "."),
       DnsOp.setRecords (cfg.domain ++ ".")
         [AddressRecord.mk cfg.record a cfg.recordTTL]] ∧
    (∀ env2 secret c, (configureInwx env2 secret c).1.recordTTL = 300) ∧
    (∀ env2 c, (configureBunny env2 c).1.recordTTL = 15) := by
  refine ⟨?_, ?_, ?_⟩
  · cases hOk : env.setRecordsOk <;>
      simp [checkAndUpdateDNS, hL, updateDNS, hG, hNe, hp, hOk]
  · intro env2 secret c
    rw [configureInwx_fst]
  · intro env2 c
    rw [configureBunny_fst]

/-- Concrete instance of `convergence_single_write`. -/
theorem convergence_single_write_witness :
    (checkAndUpdateDNS exParse exCfg
      { isLeader := true, getRecordsRes := some [], setRecordsOk := true }).2 =
      [DnsOp.getRecords "example.com.",
       DnsOp.setRecords "example.com."
         [AddressRecord.mk "lb" ⟨true, "10.0.0.2"⟩ 300]] :=
  (convergence_single_write exParse exCfg
    { isLeader := true, getRecordsRes := some [], setRecordsOk := true } []
    ⟨true, "10.0.0.2"⟩ rfl rfl (by decide) (by decide)).1

/-- Claim C3 counterexample: with the desired IP the canonical IPv6
literal `2001:db8::1`, the pass writes an AAAA record
(`libdns.Address.RR()` yields type `"AAAA"` for an IPv6 IP) that the
A-only scan (`sentinel.go` line 161) never reads back: starting from the
empty zone, both of two consecutive passes with no external change issue a
`SetRecords` call — two writes, and after the first successful upsert the
second pass still finds `currentIP` (empty) different from the desired IP,
refuting both halves of the claim. -/
theorem ipv6_every_pass_writes :
    writesOf (passOnZone parse6 cfg6 true []).1.2 +
      writesOf (passOnZone parse6 cfg6 true (passOnZone parse6 cfg6 true []).2).1.2 = 2 ∧
    ¬(writesOf (passOnZone parse6 cfg6 true []).1.2 +
        writesOf (passOnZone parse6 cfg6 true (passOnZone parse6 cfg6 true []).2).1.2 ≤ 1) ∧
    (passOnZone parse6 cfg6 true []).1.1 = PassOutcome.updated ∧
    currentIPOf cfg6 (passOnZone parse6 cfg6 true []).2 = "" ∧
    (passOnZone parse6 cfg6 true (passOnZone parse6 cfg6 true []).2).1.1 =
      PassOutcome.updated := by
  decide

/-- Claim C3 (amended): for every zone state, two consecutive
reconciliation passes with no external change perform at most one DNS
write, and after a first pass whose upsert succeeded the second pass finds
the current IP equal to the desired IP and issues no `SetRecords` call —
provided the configured server IP parses as an IPv4 address whose
canonical form is the configured text (so the written record has type
`"A"`, which the scan reads back). For an IPv6 server IP the written AAAA
record is invisible to the A-only scan and every pass writes. -/
theorem pass_idempotent (parse : String → Option Addr) (cfg : Config)
    (isLeader : Bool) (zone : List RR)
    (hrt : ∀ a, parse cfg.serverIP = some a →
      a.is4 = true ∧ addrToString a = cfg.serverIP) :
    writesOf (passOnZone parse cfg isLeader zone).1.2 +
      writesOf (passOnZone parse cfg isLeader
        (passOnZone parse cfg isLeader zone).2).1.2 ≤ 1 ∧
    ((passOnZone parse cfg isLeader zone).1.1 = PassOutcome.updated →
      currentIPOf cfg (passOnZone parse cfg isLeader zone).2 = cfg.serverIP ∧
      writesOf (passOnZone parse cfg isLeader
        (passOnZone parse cfg isLeader zone).2).1.2 = 0) := by
  cases isLeader with
  | false =>
    simp [passOnZone, checkAndUpdateDNS, applyOps, writesOf]
  | true =>
    by_cases hc : currentIPOf cfg zone = cfg.serverIP
    · simp [passOnZone, checkAndUpdateDNS, updateDNS, hc, applyOps, writesOf]
    · cases hp : parse cfg.serverIP with
      | none =>
        simp [passOnZone, checkAndUpdateDNS, updateDNS, hc, hp, applyOps, writesOf]
      | some a =>
        have hZone2 :
            (passOnZone parse cfg true zone).2 =
              setRecordsModel zone [addressRR (AddressRecord.mk cfg.record a cfg.recordTTL)] := by
          simp [passOnZone, checkAndUpdateDNS, updateDNS, hc, hp, applyOps]
        have hCur2' :
            currentIPOf cfg
              (setRecordsModel zone [addressRR (AddressRecord.mk cfg.record a cfg.recordTTL)]) =
              cfg.serverIP := by
          rw [currentIPOf_after_upsert cfg zone a cfg.recordTTL (hrt a hp).1]
          exact (hrt a hp).2
        have hCur2 : currentIPOf cfg (passOnZone parse cfg true zone).2 = cfg.serverIP := by
          rw [hZone2]
          exact hCur2'
        have hPass2 :
            writesOf (passOnZone parse cfg true (passOnZone parse cfg true zone).2).1.2 = 0 := by
          rw [hZone2]
          simp only [passOnZone, checkAndUpdateDNS, updateDNS, hCur2', if_true]
          simp [writesOf]
        have hPass1 : writesOf (passOnZone parse cfg true zone).1.2 = 1 := by
          simp [passOnZone, checkAndUpdateDNS, updateDNS, hc, hp, writesOf]
        refine ⟨by rw [hPass1, hPass2], fun _ => ⟨hCur2, hPass2⟩⟩

/-- Concrete instance of `pass_idempotent`: starting from an empty zone,
the first pass writes once, the second pass is a no-op. -/
theorem pass_idempotent_witness :
    writesOf (passOnZone exParse exCfg true []).1.2 +
      writesOf (passOnZone exParse exCfg true (passOnZone exParse exCfg true []).2).1.2 ≤ 1 :=
  (pass_idempotent exParse exCfg true []
    (by
      intro a h
      have h0 : exParse exCfg.serverIP = some ⟨true, "10.0.0.2"⟩ := by decide
      have ha := Option.some.inj (h0.symm.trans h)
      rw [← ha]
      exact ⟨rfl, rfl⟩)).1

/-- Claim C4 counterexample: the scan of `updateDNS` matches only records
of type `"A"` (`sentinel.go` line 161); a matching-name record of address
type `"AAAA"` is skipped, so `currentIP` stays empty instead of taking
that record's content as the claim states. -/
theorem aaaa_record_not_scanned :
    currentIPOf exCfg [RR.mk "lb" "AAAA" "2001:db8::1" 300] = "" ∧
    ("" : String) ≠ "2001:db8::1" := by decide

/-- Claim C4 (amended): the pass sets `currentIP` to the content of the
first record whose name equals the configured record and whose type is
exactly `"A"` (AAAA records are never matched); when no such record
exists, `currentIP` is the empty string, and — with leadership held and a
non-empty, parseable desired IP — a create-equivalent `SetRecords` call is
issued. -/
theorem first_a_record_scan :
    (∀ (cfg : Config) (pre post : List RR) (rr : RR),
      (∀ r ∈ pre, ¬(r.name = cfg.record ∧ r.typ = "A")) →
      rr.name = cfg.record → rr.typ = "A" →
      currentIPOf cfg (pre ++ rr :: post) = rr.data) ∧
    (∀ (cfg : Config) (rs : List RR),
      (∀ r ∈ rs, ¬(r.name = cfg.record ∧ r.typ = "A")) →
      currentIPOf cfg rs = "") ∧
    (∀ (parse : String → Option Addr) (cfg : Config) (env : PassEnv)
      (rs : List RR) (a : Addr),
      env.isLeader = true → env.getRecordsRes = some rs →
      currentIPOf cfg rs = "" → cfg.serverIP ≠ "" → parse cfg.serverIP = some a →
      (checkAndUpdateDNS parse cfg env).2 =
        [DnsOp.getRecords (cfg.domain ++ "."),
         DnsOp.setRecords (cfg.domain ++ ".")
           [AddressRecord.mk cfg.record a cfg.recordTTL]]) := by
  have hnomatch : ∀ (cfg : Config) (rs : List RR),
      (∀ r ∈ rs, ¬(r.name = cfg.record ∧ r.typ = "A")) →
      rs.find? (fun r => r.name == cfg.record && r.typ == "A") = none := by
    intro cfg rs h
    rw [List.find?_eq_none]
    intro x hx hcontra
    simp only [Bool.and_eq_true, beq_iff_eq] at hcontra
    exact h x hx hcontra
  refine ⟨?_, ?_, ?_⟩
  · intro cfg pre post rr hpre hname htyp
    have hpos : (rr.name == cfg.record && rr.typ == "A") = true := by
      simp [hname, htyp]
    have hfind :
        List.find? (fun r => r.name == cfg.record && r.typ == "A") (rr :: post) =
          some rr :=
      List.find?_cons_of_pos post hpos
    rw [currentIPOf, List.find?_append, hnomatch cfg pre hpre, hfind]
    rfl
  · intro cfg rs h
    rw [currentIPOf, hnomatch cfg rs h]
  · intro parse cfg env rs a hL hG hEmpty hIP hp
    have hNe : currentIPOf cfg rs ≠ cfg.serverIP := by
      rw [hEmpty]
      exact fun h => hIP h.symm
    cases hOk : env.setRecordsOk <;>
      simp [checkAndUpdateDNS, hL, updateDNS, hG, hNe, hp, hOk]

/-- Claim C10: when the configured server IP does not parse as an IP
literal, a pass that reaches the update branch panics in
`netip.MustParseAddr` — no `SetRecords` call is issued and no write
failure is logged; and when the server IP does parse, the pass never
panics. -/
theorem unparseable_server_ip_panics (parse : String → Option Addr)
    (cfg : Config) (env : PassEnv) (rs : List RR)
    (hL : env.isLeader = true) (hG : env.getRecordsRes = some rs)
    (hNe : currentIPOf cfg rs ≠ cfg.serverIP) :
    (parse cfg.serverIP = none →
      checkAndUpdateDNS parse cfg env =
        (PassOutcome.panicked, [DnsOp.getRecords (cfg.domain ++ ".")])) ∧
    (∀ a, parse cfg.serverIP = some a →
      (checkAndUpdateDNS parse cfg env).1 ≠ PassOutcome.panicked) := by
  constructor
  · intro hp
    simp [checkAndUpdateDNS, hL, updateDNS, hG, hNe, hp]
  · intro a hp
    cases hOk : env.setRecordsOk <;>
      simp [checkAndUpdateDNS, hL, updateDNS, hG, hNe, hp, hOk]

/-- Concrete instance of `unparseable_server_ip_panics`: a server IP taken
verbatim from a node label that is not an IP literal. -/
theorem unparseable_server_ip_panics_witness :
    checkAndUpdateDNS (fun _ => none)
      { domain := "example.com", record := "lb", recordTTL := 300,
        serverIP := "not-an-ip", logLevel := "INFO",
        orchestrationType := "swarm", dnsProvider := "inwx" }
      { isLeader := true, getRecordsRes := some [], setRecordsOk := true } =
      (PassOutcome.panicked, [DnsOp.getRecords "example.com."]) :=
  (unparseable_server_ip_panics (fun _ => none)
    { domain := "example.com", record := "lb", recordTTL := 300,
      serverIP := "not-an-ip", logLevel := "INFO",
      orchestrationType := "swarm", dnsProvider := "inwx" }
    { isLeader := true, getRecordsRes := some [], setRecordsOk := true } []
    rfl rfl (by decide)).1 rfl

/-- The record-read path never surfaces the session-expired code 1500 as
an error: code 1500 always triggers another re-login-and-retry. -/
theorem inwxGet_never_fails_1500 (resps : List (Int × String)) :
    ∀ cookies, inwxGetRecordContent cookies resps ≠ InwxGetResult.infoFailed 1500 := by
  induction resps with
  | nil =>
    intro cookies
    cases cookies <;> simp [inwxGetRecordContent]
  | cons hd tl ih =>
    intro cookies
    obtain ⟨code, content⟩ := hd
    cases cookies
    · by_cases h : code = 1000
      · simpa [inwxGetRecordContent, h] using ih true
      · simp [inwxGetRecordContent, h]
    · by_cases h : code = 1000
      · simp [inwxGetRecordContent, h]
      · by_cases h2 : code = 1500
        · simpa [inwxGetRecordContent, h, h2] using ih false
        · simp [inwxGetRecordContent, h, h2]

/-- The record-write path never surfaces the session-expired code 1500 as
an error either. -/
theorem inwxUpd_never_fails_1500 (codes : List Int) :
    ∀ cookies, inwxUpdateDNS cookies codes ≠ InwxUpdResult.updateFailed 1500 := by
  induction codes with
  | nil =>
    intro cookies
    cases cookies <;> simp [inwxUpdateDNS]
  | cons code tl ih =>
    intro cookies
    cases cookies
    · by_cases h : code = 1000
      · simpa [inwxUpdateDNS, h] using ih true
      · simp [inwxUpdateDNS, h]
    · by_cases h : code = 1000
      · simp [inwxUpdateDNS, h]
      · by_cases h2 : code = 1500
        · simpa [inwxUpdateDNS, h, h2] using ih false
        · simp [inwxUpdateDNS, h, h2]

/-- Claim C5 counterexample: starting with a live session, the response
sequence info 1500, login 1000, info 1500, login 1000, info 1000 holds two
consecutive session-expired responses, yet `GetRecordContent` returns the
content — the second 1500 triggered another retry instead of surfacing an
error as the claim states; likewise for `UpdateDNS`. -/
theorem second_session_expiry_retries_again :
    inwxGetRecordContent true
      [(1500, ""), (1000, ""), (1500, ""), (1000, ""), (1000, "10.0.0.1")] =
      InwxGetResult.content "10.0.0.1" ∧
    inwxUpdateDNS true [1500, 1000, 1500, 1000, 1000] = InwxUpdResult.ok := by
  decide

/-- Claim C5 (amended): a session-expired response (code 1500) on the INWX
record read or write re-authenticates and retries every time it occurs,
recursively and without bound — `k` consecutive session-expiry rounds
followed by a success still succeed for every `k`, and code 1500 is never
surfaced as the error of the pass. -/
theorem inwx_session_retry_unbounded :
    (∀ (k : Nat) (c : String),
      inwxGetRecordContent true (retryResponses k c) = InwxGetResult.content c) ∧
    (∀ (cookies : Bool) (resps : List (Int × String)),
      inwxGetRecordContent cookies resps ≠ InwxGetResult.infoFailed 1500) ∧
    (∀ (cookies : Bool) (codes : List Int),
      inwxUpdateDNS cookies codes ≠ InwxUpdResult.updateFailed 1500) := by
  refine ⟨?_, fun cookies resps => inwxGet_never_fails_1500 resps cookies,
    fun cookies codes => inwxUpd_never_fails_1500 codes cookies⟩
  intro k c
  induction k with
  | zero => simp [retryResponses, inwxGetRecordContent]
  | succ n ih =>
    have hstep : retryResponses (n + 1) c =
        ((1500 : Int), "") :: ((1000 : Int), "") :: retryResponses n c := by
      simp [retryResponses, List.replicate_succ]
    rw [hstep]
    simpa [inwxGetRecordContent] using ih

/-- Claim C6 counterexample: with valid INWX credentials and the
orchestration selector `"nomad"` (neither `"swarm"` nor `"kubernetes"`),
`NewSentinel` leaves the orchestration adapter nil and the
`GetNodePublicIP` call panics with a runtime nil-pointer error — the
process aborts, but not through `log.Fatal` with a descriptive
configuration message. -/
theorem unknown_orchestration_nil_panic :
    newSentinel credEnvNomad none true (some "192.0.2.1") (newConfig credEnvNomad) =
      (StartupOutcome.nilPanic, []) ∧
    (newSentinel credEnvNomad none true (some "192.0.2.1") (newConfig credEnvNomad)).1 ≠
      StartupOutcome.fatalLog := by
  decide

/-- Claim C6 (amended): an unrecognized DNS provider selector, or missing
credentials for the selected provider, abort startup through `log.Fatal`
with a descriptive message before any network call; an orchestration
selector that is neither `"swarm"` nor `"kubernetes"` also aborts before
any network call, but through the nil-adapter runtime panic (or the
earlier provider fatal), not through a configuration error message. -/
theorem startup_aborts_before_network (env : String → Option String)
    (secret : Option String) (k8sInitOk : Bool) (ip : Option String) (cfg : Config) :
    (cfg.dnsProvider ≠ "inwx" → cfg.dnsProvider ≠ "bunny" →
      newSentinel env secret k8sInitOk ip cfg = (StartupOutcome.fatalLog, [])) ∧
    (cfg.dnsProvider = "inwx" → getEnv env "INWX_USER" "" = "" →
      newSentinel env secret k8sInitOk ip cfg = (StartupOutcome.fatalLog, [])) ∧
    (cfg.dnsProvider = "inwx" → secret = none → getEnv env "INWX_PASSWORD" "" = "" →
      newSentinel env secret k8sInitOk ip cfg = (StartupOutcome.fatalLog, [])) ∧
    (cfg.dnsProvider = "bunny" → getEnv env "BUNNY_API_KEY" "" = "" →
      newSentinel env secret k8sInitOk ip cfg = (StartupOutcome.fatalLog, [])) ∧
    (cfg.orchestrationType ≠ "swarm" → cfg.orchestrationType ≠ "kubernetes" →
      ((newSentinel env secret k8sInitOk ip cfg).1 = StartupOutcome.nilPanic ∨
        (newSentinel env secret k8sInitOk ip cfg).1 = StartupOutcome.fatalLog) ∧
      (newSentinel env secret k8sInitOk ip cfg).2 = []) := by
  refine ⟨?_, ?_, ?_, ?_, ?_⟩
  · intro h1 h2
    simp [newSentinel, configureDns, h1, h2]
  · intro h1 h2
    simp [newSentinel, configureDns, h1, configureInwx, h2]
  · intro h1 h2 h3
    by_cases hu : getEnv env "INWX_USER" "" = ""
    · simp [newSentinel, configureDns, h1, configureInwx, hu]
    · simp [newSentinel, configureDns, h1, h2, configureInwx, hu, h3]
  · intro h1
    by_cases hInwx : cfg.dnsProvider = "inwx"
    · intro h2
      exact absurd (hInwx.symm.trans h1) (by decide)
    · intro h2
      simp [newSentinel, configureDns, hInwx, h1, configureBunny, h2]
  · intro h1 h2
    unfold newSentinel
    cases hcl : (configureDns env secret cfg).2 with
    | none => simp
    | some dns =>
      have ho := configureDns_orch env secret cfg
      simp [selectOrchestration, ho, h1, h2, finishStartup]

/-- Claim C7 counterexample: `NewConfig` constructs the configuration with
`RecordTTL` 0 (Go's zero value), and `NewSentinel` later mutates it to the
provider default (300 for INWX) inside `configureInwx` — so a second
field besides the resolved server IP changes after construction,
contradicting the claim that the TTL keeps its constructed value. -/
theorem record_ttl_mutated_post_construction :
    (newConfig credEnv).recordTTL = 0 ∧
    startupConfigTTL
      (newSentinel credEnv none true (some "192.0.2.1") (newConfig credEnv)).1 =
      some 300 ∧
    (0 : Int) ≠ 300 := by
  decide

/-- Claim C7 (amended): after construction exactly two configuration
fields change — `recordTTL`, set once by the provider configurator to the
provider default (300 for INWX, 15 for Bunny), and `serverIP`, set once to
the IP resolved through the orchestration adapter; domain, record, log
level and both selectors keep the values they had at construction. -/
theorem config_frame_post_construction (env : String → Option String)
    (secret : Option String) (k8sInitOk : Bool) (ip : Option String)
    (cfg : Config) (s : SentinelState) (ops : List StartupNetOp)
    (h : newSentinel env secret k8sInitOk ip cfg = (StartupOutcome.ok s, ops)) :
    s.config = { cfg with
      recordTTL := s.config.recordTTL
      serverIP := s.config.serverIP } ∧
    ip = some s.config.serverIP ∧
    ((cfg.dnsProvider = "inwx" ∧ s.config.recordTTL = 300) ∨
      (cfg.dnsProvider = "bunny" ∧ s.config.recordTTL = 15)) := by
  unfold newSentinel at h
  cases hcl : (configureDns env secret cfg).2 with
  | none =>
    rw [hcl] at h
    exact absurd h (by simp)
  | some dns =>
    rw [hcl] at h
    obtain ⟨h1, h2⟩ := finishStartup_ok _ _ _ _ _ _ h
    rcases configureDns_some env secret cfg dns hcl with ⟨hpv, hc1⟩ | ⟨hpv, hc1⟩ <;>
      rw [hc1] at h1
    · have httl : s.config.recordTTL = 300 := by rw [h1]
      refine ⟨?_, h2, Or.inl ⟨hpv, httl⟩⟩
      rw [h1]
    · have httl : s.config.recordTTL = 15 := by rw [h1]
      refine ⟨?_, h2, Or.inr ⟨hpv, httl⟩⟩
      rw [h1]

/-- Concrete instance of `config_frame_post_construction`. -/
theorem config_frame_post_construction_witness :
    exSentinelState.config =
      { newConfig credEnv with
        recordTTL := exSentinelState.config.recordTTL
        serverIP := exSentinelState.config.serverIP } ∧
    some "192.0.2.1" = some exSentinelState.config.serverIP ∧
    (((newConfig credEnv).dnsProvider = "inwx" ∧
        exSentinelState.config.recordTTL = 300) ∨
      ((newConfig credEnv).dnsProvider = "bunny" ∧
        exSentinelState.config.recordTTL = 15)) :=
  config_frame_post_construction credEnv none true (some "192.0.2.1")
    (newConfig credEnv) exSentinelState [StartupNetOp.getNodePublicIP] (by decide)

/-- Claim C8: the code performs exactly one `WatchEvents` call for the
lifetime of the process — when the event transport drops and
`WatchEvents` returns, the `Run` goroutine ends and `main` stays blocked
on the signal channel; there is no backoff-and-re-enter loop anywhere. -/
theorem watch_events_never_restarted :
    mainActionsAfterWatchReturn.count RunAction.watchEventsCall = 1 ∧
    mainActionsAfterWatchReturn.getLast? = some RunAction.blockOnSignal := by
  decide

/-- Per-node matching condition of the swarm leadership loop. -/
theorem swarm_node_match (currentNodeID : String) (node : NodeInfo) :
    (node.id == currentNodeID &&
      (match node.managerStatus with
       | some leader => leader
       | none => false)) = true ↔
    node.id = currentNodeID ∧ node.managerStatus = some true := by
  obtain ⟨i, ms⟩ := node
  cases ms with
  | none => simp
  | some b => cases b <;> simp

/-- Claim C9: both orchestration adapters' leadership checks return false
(never an error, never an abort — they are total boolean functions) under
every query failure: failed node-identity lookup, failed API call or
parse, or missing leader data; and they return true exactly when the
node's identity matches the backend's current leader (for swarm, a listed
node with this node's ID and the leader flag; for Kubernetes, a lease
holder identity starting with the node name and an underscore). -/
theorem is_leader_false_on_failure :
    (∀ nodesRes, isSwarmLeader none nodesRes = false) ∧
    (∀ nid, isSwarmLeader (some nid) none = false) ∧
    (∀ leaseRes, k8sIsLeader none leaseRes = false) ∧
    (∀ n, k8sIsLeader (some n) none = false) ∧
    (∀ n, k8sIsLeader (some n) (some none) = false) ∧
    (∀ nid nodes, isSwarmLeader (some nid) (some nodes) = true ↔
      ∃ node ∈ nodes, node.id = nid ∧ node.managerStatus = some true) ∧
    (∀ n holder, k8sIsLeader (some n) (some (some holder)) =
      strHasPrefix holder (n ++ "_")) := by
  refine ⟨fun _ => rfl, fun _ => rfl, fun _ => rfl, fun _ => rfl, fun _ => rfl, ?_,
    fun _ _ => rfl⟩
  intro nid nodes
  rw [isSwarmLeader, List.any_eq_true]
  constructor
  · rintro ⟨node, hmem, hmatch⟩
    exact ⟨node, hmem, (swarm_node_match nid node).mp hmatch⟩
  · rintro ⟨node, hmem, hmatch⟩
    exact ⟨node, hmem, (swarm_node_match nid node).mpr hmatch⟩

